import Mathlib

/-!
Shallow embedding of the analytics service in
`apps/backend/analytics-service/src/main.rs`: an in-memory event store (a
`Vec<AnalyticsEvent>` behind an `RwLock`) with HTTP handlers for create,
list, get-by-id and stats.  `Uuid` values are modelled as `Nat`,
`chrono::DateTime<Utc>` timestamps as `Int`, `serde_json::Value` as a small
inductive `JsonValue`, and `HashMap`s as association lists.  The id
generator (`Uuid::new_v4`) and the clock (`Utc::now`) are environment
effects and enter each operation as explicit arguments.  The handlers run
their store operation while holding the lock, so each operation is a
function of the store state it observed.
-/

/-- JSON values, modelling `serde_json::Value` (numbers simplified to `Int`,
objects to association lists). -/
inductive JsonValue where
  | null : JsonValue
  | bool (b : Bool) : JsonValue
  | num (n : Int) : JsonValue
  | str (s : String) : JsonValue
  | arr (elems : List JsonValue) : JsonValue
  | obj (fields : List (String × JsonValue)) : JsonValue

/-- The stored event record (`main.rs:15-22`). -/
structure AnalyticsEvent where
  id : Nat
  event_type : String
  user_id : Option String
  properties : List (String × JsonValue)
  timestamp : Int

/-- The deserialized request payload for `POST /events` (`main.rs:24-29`). -/
structure CreateEventRequest where
  event_type : String
  user_id : Option String
  properties : List (String × JsonValue)

/-- The aggregate statistics record (`main.rs:31-36`). -/
structure EventStats where
  total_events : Nat
  events_by_type : List (String × Nat)
  recent_events : List AnalyticsEvent

/-- A JSON object supplied as the body of `POST /events`, viewed field by
field: `none` records that the field is absent from the object (a JSON
`null` for `user_id` also deserializes to `none`). -/
structure CreateEventBody where
  event_type : Option String
  user_id : Option String
  properties : Option (List (String × JsonValue))

/-- Deserialization of `CreateEventRequest` following serde derive semantics
for the struct at `main.rs:24-29`: the `String` field `event_type` and the
`HashMap` field `properties` carry no `#[serde(default)]`, so both are
required and deserialization fails when either is absent; the
`Option<String>` field `user_id` defaults to `None` when absent. -/
def CreateEventBody.deserialize (b : CreateEventBody) : Option CreateEventRequest :=
  match b.event_type, b.properties with
  | some et, some props => some ⟨et, b.user_id, props⟩
  | _, _ => none

/-- The store mutation performed by `create_event` (`main.rs:85-97`): build
the event from the payload, a generated id and the current time, push a
clone onto the store, and return the event. -/
def create_event (events : List AnalyticsEvent) (payload : CreateEventRequest)
    (freshId : Nat) (now : Int) : AnalyticsEvent × List AnalyticsEvent :=
  let event : AnalyticsEvent :=
    { id := freshId, event_type := payload.event_type, user_id := payload.user_id,
      properties := payload.properties, timestamp := now }
  (event, events ++ [event])

/-- `get_events` (`main.rs:100-103`): return a snapshot clone of the whole
collection. -/
def get_events (events : List AnalyticsEvent) : List AnalyticsEvent :=
  events

/-- The lookup performed by `get_event` (`main.rs:109-115`): linear search
for the first event whose id matches. -/
def get_event (events : List AnalyticsEvent) (id : Nat) : Option AnalyticsEvent :=
  events.find? (fun e => e.id == id)

/-- One step of the `events_by_type` loop (`main.rs:125`):
`*events_by_type.entry(t).or_insert(0) += 1` on an association list. -/
def bumpCount (m : List (String × Nat)) (t : String) : List (String × Nat) :=
  match m with
  | [] => [(t, 1)]
  | (k, v) :: rest => if k = t then (k, v + 1) :: rest else (k, v) :: bumpCount rest t

/-- The `events_by_type` map built fresh by `get_stats` (`main.rs:122-126`):
start from an empty map and bump the count keyed by each event's type. -/
def events_by_type (events : List AnalyticsEvent) : List (String × Nat) :=
  events.foldl (fun m e => bumpCount m e.event_type) []

/-- The sort in `get_stats` (`main.rs:128-129`): a stable sort of a copy of
the collection by the comparator `b.timestamp.cmp(&a.timestamp)`, i.e. by
timestamp descending. -/
def sortByTimestampDesc (events : List AnalyticsEvent) : List AnalyticsEvent :=
  events.mergeSort (fun a b => decide (b.timestamp ≤ a.timestamp))

/-- `get_stats` (`main.rs:118-137`): total count, per-type counts, and the
sorted copy truncated to its first 10 elements. -/
def get_stats (events : List AnalyticsEvent) : EventStats :=
  { total_events := events.length,
    events_by_type := events_by_type events,
    recent_events := (sortByTimestampDesc events).take 10 }

/-- The `POST /events` route (`main.rs:81-98`) including the
`Json<CreateEventRequest>` extractor: a body that fails to deserialize into
`CreateEventRequest` is rejected before the handler runs and leaves the
store untouched (axum answers such data errors with 422, and pure
syntactic failures such as an unparseable byte stream with 400; both 4xx
rejections are modelled here by the single code 422).  A deserialized
payload always succeeds and appends the created event. -/
def postEventsRoute (events : List AnalyticsEvent) (body : CreateEventBody)
    (freshId : Nat) (now : Int) : Except Nat AnalyticsEvent × List AnalyticsEvent :=
  match body.deserialize with
  | none => (Except.error 422, events)
  | some payload =>
    let r := create_event events payload freshId now
    (Except.ok r.1, r.2)

/-- Hex digit test for UUID parsing. -/
def isHexDigit (c : Char) : Bool :=
  c.isDigit || ('a' ≤ c && c ≤ 'f') || ('A' ≤ c && c ≤ 'F')

/-- Numeric value of a hex digit. -/
def hexVal (c : Char) : Nat :=
  if c.isDigit then c.toNat - 48
  else if 'a' ≤ c ∧ c ≤ 'f' then c.toNat - 87
  else c.toNat - 55

/-- Modelled from the spec: parsing of the `{id}` path segment as a UUID
(performed by the `uuid` crate via axum's `Path<Uuid>` extractor, code
outside this repository).  The canonical hyphenated form is modelled: 36
characters with `-` at positions 8, 13, 18 and 23 and hex digits elsewhere,
read as a 128-bit number; any other string fails to parse. -/
def parseUuid (s : String) : Option Nat :=
  let cs := s.data
  if cs.length = 36 &&
      (List.range 36).all (fun i =>
        if i = 8 || i = 13 || i = 18 || i = 23 then cs.getD i ' ' == '-'
        else isHexDigit (cs.getD i ' ')) then
    some (cs.foldl (fun acc c => if c = '-' then acc else acc * 16 + hexVal c) 0)
  else
    none

/-- The `GET /events/:id` route (`main.rs:105-116`) including the
`Path<Uuid>` extractor: a path segment that does not parse as a UUID is
rejected with 400 Bad Request by axum's path-deserialization rejection
before the handler runs; a parsed id that matches no stored event yields
404 from the handler. -/
def getEventRoute (events : List AnalyticsEvent) (rawId : String) :
    Except Nat AnalyticsEvent :=
  match parseUuid rawId with
  | none => Except.error 400
  | some id =>
    match get_event events id with
    | some e => Except.ok e
    | none => Except.error 404

/-- Store states reachable from startup: `main.rs:48` initializes the store
empty, and the only mutation is `create_event`, serialized by the write
lock.  `Uuid::new_v4()` is modelled as an oracle producing an id distinct
from every id already in the store. -/
inductive Reachable : List AnalyticsEvent → Prop where
  | init : Reachable []
  | step {events : List AnalyticsEvent} {payload : CreateEventRequest}
      {freshId : Nat} {now : Int} : Reachable events →
      (∀ e ∈ events, e.id ≠ freshId) →
      Reachable (create_event events payload freshId now).2

/-- Lookup with default 0 in an association-list counter, matching
`HashMap` lookup of a count. -/
def lookupCount (m : List (String × Nat)) (t : String) : Nat :=
  match m with
  | [] => 0
  | (k, v) :: rest => if k = t then v else lookupCount rest t

/-- Sum of the counts in an association-list counter. -/
def sumCounts (m : List (String × Nat)) : Nat :=
  (m.map Prod.snd).sum

theorem lookupCount_bumpCount (m : List (String × Nat)) (t u : String) :
    lookupCount (bumpCount m u) t = lookupCount m t + (if u = t then 1 else 0) := by
  induction m with
  | nil => simp [bumpCount, lookupCount]
  | cons p rest ih =>
    obtain ⟨k, v⟩ := p
    by_cases hku : k = u
    · subst hku
      by_cases hkt : k = t
      · subst hkt; simp [bumpCount, lookupCount]
      · simp [bumpCount, lookupCount, hkt]
    · simp only [bumpCount, if_neg hku]
      by_cases hkt : k = t
      · subst hkt
        have hut : ¬u = k := fun h => hku h.symm
        simp [lookupCount, hut]
      · simp [lookupCount, hkt, ih]

theorem sumCounts_bumpCount (m : List (String × Nat)) (u : String) :
    sumCounts (bumpCount m u) = sumCounts m + 1 := by
  induction m with
  | nil => simp [bumpCount, sumCounts]
  | cons p rest ih =>
    obtain ⟨k, v⟩ := p
    simp only [sumCounts, List.map_cons, List.sum_cons] at ih ⊢
    by_cases hku : k = u
    · simp [bumpCount, hku]
      omega
    · simp [bumpCount, hku, ih]
      omega

theorem lookupCount_foldl_bump (events : List AnalyticsEvent)
    (m : List (String × Nat)) (t : String) :
    lookupCount (events.foldl (fun m e => bumpCount m e.event_type) m) t
      = lookupCount m t + events.countP (fun e => e.event_type == t) := by
  induction events generalizing m with
  | nil => simp
  | cons e rest ih =>
    simp only [List.foldl_cons, List.countP_cons]
    rw [ih, lookupCount_bumpCount]
    by_cases h : e.event_type = t <;> (simp [h]; try omega)

theorem sumCounts_foldl_bump (events : List AnalyticsEvent) (m : List (String × Nat)) :
    sumCounts (events.foldl (fun m e => bumpCount m e.event_type) m)
      = sumCounts m + events.length := by
  induction events generalizing m with
  | nil => simp
  | cons e rest ih =>
    simp only [List.foldl_cons, List.length_cons]
    rw [ih, sumCounts_bumpCount]
    omega

/-- C2: `stats().total_events` equals `list().length`; `events_by_type`
maps every type `t` to the number of stored events with that type; the
per-type counts sum to `total_events`. -/
theorem stats_counts_correct (events : List AnalyticsEvent) (t : String) :
    (get_stats events).total_events = (get_events events).length ∧
    lookupCount (get_stats events).events_by_type t
      = events.countP (fun e => e.event_type == t) ∧
    sumCounts (get_stats events).events_by_type = (get_stats events).total_events := by
  refine ⟨rfl, ?_, ?_⟩
  · simpa [get_stats, events_by_type, lookupCount] using
      lookupCount_foldl_bump events [] t
  · simpa [get_stats, events_by_type, sumCounts] using sumCounts_foldl_bump events []

/-- C1: when `create_event` returns an event whose generated id is fresh
for the store, an immediate `get_event` with that id returns an event equal
in all fields (id, event_type, user_id, properties, timestamp) to the one
`create_event` returned. -/
theorem get_after_create (events : List AnalyticsEvent) (payload : CreateEventRequest)
    (freshId : Nat) (now : Int) (hfresh : ∀ e ∈ events, e.id ≠ freshId) :
    get_event (create_event events payload freshId now).2
        (create_event events payload freshId now).1.id
      = some (create_event events payload freshId now).1 := by
  have h1 : events.find? (fun e => e.id == freshId) = none := by
    rw [List.find?_eq_none]
    intro e he
    simpa using hfresh e he
  simp [create_event, get_event, List.find?_append, h1]

theorem get_after_create_witness :
    get_event (create_event [] ⟨"click", some "u1", []⟩ 1 5).2
        (create_event [] ⟨"click", some "u1", []⟩ 1 5).1.id
      = some (create_event [] ⟨"click", some "u1", []⟩ 1 5).1 :=
  get_after_create [] ⟨"click", some "u1", []⟩ 1 5 (by simp)

/-- C6: `get_event` returns `none` (NotFound) exactly when no stored event
has the requested id; when it returns an event, that event is a stored one
whose id matches, found by linear search; it returns some event exactly
when a stored event has the id. -/
theorem get_event_found_iff (events : List AnalyticsEvent) (id : Nat) :
    (get_event events id = none ↔ ∀ e ∈ events, e.id ≠ id) ∧
    (∀ ev, get_event events id = some ev → ev ∈ events ∧ ev.id = id) ∧
    ((∃ ev, get_event events id = some ev) ↔ ∃ e ∈ events, e.id = id) := by
  refine ⟨?_, ?_, ?_⟩
  · rw [get_event, List.find?_eq_none]
    simp
  · intro ev h
    exact ⟨List.mem_of_find?_eq_some h, by simpa using List.find?_some h⟩
  · rw [← Option.isSome_iff_exists, get_event, List.find?_isSome]
    simp

/-- C7: a `POST /events` body that fails validation is answered with a 4xx
error and leaves the store exactly as it was. -/
theorem invalid_create_leaves_store_unchanged (events : List AnalyticsEvent)
    (body : CreateEventBody) (freshId : Nat) (now : Int)
    (h : body.deserialize = none) :
    (postEventsRoute events body freshId now).1 = Except.error 422 ∧
    (postEventsRoute events body freshId now).2 = events := by
  simp [postEventsRoute, h]

theorem invalid_create_leaves_store_unchanged_witness :
    CreateEventBody.deserialize ⟨none, none, none⟩ = none ∧
    (postEventsRoute [] ⟨none, none, none⟩ 1 5).1 = Except.error 422 ∧
    (postEventsRoute [] ⟨none, none, none⟩ 1 5).2 = [] :=
  ⟨rfl, invalid_create_leaves_store_unchanged [] ⟨none, none, none⟩ 1 5 rfl⟩

/-- C3: `stats().recent_events` has length `min 10 n`, is sorted by
timestamp descending, and consists of the most-recent events: the events it
leaves out all have timestamps no larger than any retained event, and
together with the retained ones they are a permutation of the store. -/
theorem stats_recent_events_correct (events : List AnalyticsEvent) :
    (get_stats events).recent_events.length = min 10 events.length ∧
    (get_stats events).recent_events.Pairwise
      (fun a b => b.timestamp ≤ a.timestamp) ∧
    ∃ rest, ((get_stats events).recent_events ++ rest).Perm events ∧
      ∀ a ∈ (get_stats events).recent_events, ∀ b ∈ rest,
        b.timestamp ≤ a.timestamp := by
  have htrans : ∀ a b c : AnalyticsEvent,
      (decide (b.timestamp ≤ a.timestamp)) = true →
      (decide (c.timestamp ≤ b.timestamp)) = true →
      (decide (c.timestamp ≤ a.timestamp)) = true := by
    intro a b c h1 h2
    simp only [decide_eq_true_eq] at h1 h2 ⊢
    omega
  have htotal : ∀ a b : AnalyticsEvent,
      ((decide (b.timestamp ≤ a.timestamp))
        || (decide (a.timestamp ≤ b.timestamp))) = true := by
    intro a b
    simp only [Bool.or_eq_true, decide_eq_true_eq]
    omega
  have hsorted : (sortByTimestampDesc events).Pairwise
      (fun a b : AnalyticsEvent => b.timestamp ≤ a.timestamp) := by
    have h := List.sorted_mergeSort htrans htotal events
    exact h.imp (fun hab => by simpa using hab)
  simp only [get_stats]
  refine ⟨?_, ?_, ?_⟩
  · simp [sortByTimestampDesc, List.length_take, List.length_mergeSort]
  · exact List.Pairwise.sublist (List.take_sublist 10 _) hsorted
  · refine ⟨(sortByTimestampDesc events).drop 10, ?_, ?_⟩
    · rw [List.take_append_drop]
      exact List.mergeSort_perm events _
    · have h := hsorted
      rw [← List.take_append_drop 10 (sortByTimestampDesc events)] at h
      exact (List.pairwise_append.mp h).2.2

/-- C4 (counterexample): a body supplying `event_type` but omitting
`properties` is rejected with a validation error and creates nothing,
because the serde-required `HashMap` field `properties` is missing; this
refutes the claim that only a missing `event_type` fails validation. -/
theorem create_missing_properties_rejected :
    (postEventsRoute [] ⟨some "click", none, none⟩ 1 5).1 = Except.error 422 ∧
    (postEventsRoute [] ⟨some "click", none, none⟩ 1 5).2 = [] :=
  ⟨rfl, rfl⟩

/-- C4 (amended): `POST /events` fails with a validation error exactly when
`event_type` or `properties` is missing from the body; a body supplying
both succeeds and creates an event, with `user_id` optional. -/
theorem create_validation_iff (events : List AnalyticsEvent)
    (body : CreateEventBody) (freshId : Nat) (now : Int)
    (et : String) (u : Option String) (props : List (String × JsonValue)) :
    ((postEventsRoute events body freshId now).1 = Except.error 422 ↔
      body.event_type = none ∨ body.properties = none) ∧
    (postEventsRoute events ⟨some et, u, some props⟩ freshId now).1
      = Except.ok (create_event events ⟨et, u, props⟩ freshId now).1 := by
  constructor
  · obtain ⟨bet, bu, bprops⟩ := body
    cases bet <;> cases bprops <;>
      simp [postEventsRoute, CreateEventBody.deserialize]
  · rfl

/-- C5 (counterexample): `GET /events/not-a-uuid` answers 400 Bad Request
(axum's path rejection), not 404, refuting the claim that a malformed id
produces the same 404 failure as an unknown id. -/
theorem malformed_id_answers_400_not_404 :
    getEventRoute [] "not-a-uuid" = Except.error 400 ∧
    getEventRoute [] "not-a-uuid" ≠ Except.error 404 := by
  refine ⟨rfl, fun h => ?_⟩
  have h400 : getEventRoute [] "not-a-uuid" = Except.error 400 := rfl
  rw [h400] at h
  exact absurd (Except.error.inj h) (by decide)

/-- C5 (amended): a `{id}` path segment that fails to parse as a UUID is
rejected with 400 Bad Request before reaching the handler, while a
well-formed id matching no stored event yields 404 from the handler. -/
theorem getEventRoute_failure_codes (events : List AnalyticsEvent) (rawId : String) :
    (parseUuid rawId = none → getEventRoute events rawId = Except.error 400) ∧
    (∀ id, parseUuid rawId = some id → (∀ e ∈ events, e.id ≠ id) →
      getEventRoute events rawId = Except.error 404) := by
  constructor
  · intro h
    simp [getEventRoute, h]
  · intro id hid hnone
    have hfind : get_event events id = none := by
      rw [get_event, List.find?_eq_none]
      intro e he
      simpa using hnone e he
    simp [getEventRoute, hid, hfind]

theorem getEventRoute_failure_codes_witness :
    getEventRoute [] "also-not-a-uuid" = Except.error 400 ∧
    getEventRoute [] "00000000-0000-0000-0000-000000000000" = Except.error 404 :=
  ⟨(getEventRoute_failure_codes [] "also-not-a-uuid").1 rfl,
   (getEventRoute_failure_codes [] "00000000-0000-0000-0000-000000000000").2 0 rfl
     (by simp)⟩

theorem lookupCount_events_by_type (events : List AnalyticsEvent) (t : String) :
    lookupCount (events_by_type events) t
      = events.countP (fun e => e.event_type == t) := by
  simpa [events_by_type, lookupCount] using lookupCount_foldl_bump events [] t

/-- C8: a successful create appends exactly one event at the end of the
sequence, leaving every prior entry unchanged; `get_events` returns the
collection in insertion order, and the read operations are functions of the
store snapshot and modify nothing. -/
theorem operations_preserve_store (events : List AnalyticsEvent)
    (body : CreateEventBody) (freshId : Nat) (now : Int)
    (payload : CreateEventRequest) (h : body.deserialize = some payload) :
    (∃ ev, postEventsRoute events body freshId now = (Except.ok ev, events ++ [ev])) ∧
    (postEventsRoute events body freshId now).2.take events.length = events ∧
    (postEventsRoute events body freshId now).2.length = events.length + 1 ∧
    get_events events = events := by
  refine ⟨⟨(create_event events payload freshId now).1, ?_⟩, ?_, ?_, rfl⟩
  · simp [postEventsRoute, h, create_event]
  · simp [postEventsRoute, h, create_event, List.take_left]
  · simp [postEventsRoute, h, create_event]

theorem operations_preserve_store_witness :
    (∃ ev, postEventsRoute [] ⟨some "click", some "u1", some []⟩ 1 5
        = (Except.ok ev, [] ++ [ev])) ∧
    (postEventsRoute [] ⟨some "click", some "u1", some []⟩ 1 5).2.take 0 = [] ∧
    (postEventsRoute [] ⟨some "click", some "u1", some []⟩ 1 5).2.length = 0 + 1 ∧
    get_events [] = [] :=
  operations_preserve_store [] ⟨some "click", some "u1", some []⟩ 1 5
    ⟨"click", some "u1", []⟩ rfl

/-- C9: in every reachable store state the event ids are pairwise distinct;
creates are serialized by the write lock and each one (with `Uuid::new_v4`
modelled as yielding an id fresh for the store) returns an id distinct from
every previously stored id. -/
theorem reachable_ids_pairwise_distinct (events : List AnalyticsEvent)
    (h : Reachable events) : events.Pairwise (fun a b => a.id ≠ b.id) := by
  induction h with
  | init => simp
  | step hr hfresh ih =>
    rename_i evs payload freshId now
    simp only [create_event]
    rw [List.pairwise_append]
    refine ⟨ih, by simp, ?_⟩
    intro a ha b hb
    simp only [List.mem_singleton] at hb
    subst hb
    exact hfresh a ha

theorem reachable_ids_pairwise_distinct_witness :
    ((create_event (create_event [] ⟨"click", some "u1", []⟩ 1 5).2
        ⟨"view", none, []⟩ 2 6).2).Pairwise (fun a b => a.id ≠ b.id) :=
  reachable_ids_pairwise_distinct _
    (Reachable.step (Reachable.step Reachable.init (by simp))
      (by intro e he; simp [create_event] at he; subst he; decide))

/-- C10: creation never rejects a body based on the content of
`event_type`: any string, the empty string included, is accepted and stored
unchanged; an empty-string-typed event is counted by
`stats().events_by_type` under the `""` key. -/
theorem empty_event_type_accepted (events : List AnalyticsEvent)
    (s : String) (u : Option String) (props : List (String × JsonValue))
    (freshId : Nat) (now : Int) :
    (∃ ev, (postEventsRoute events ⟨some s, u, some props⟩ freshId now).1
        = Except.ok ev ∧ ev.event_type = s) ∧
    lookupCount (get_stats
        (postEventsRoute events ⟨some "", u, some props⟩ freshId now).2).events_by_type ""
      = lookupCount (get_stats events).events_by_type "" + 1 := by
  constructor
  · exact ⟨(create_event events ⟨s, u, props⟩ freshId now).1, rfl, rfl⟩
  · have hroute : (postEventsRoute events ⟨some "", u, some props⟩ freshId now).2
        = events ++ [(create_event events ⟨"", u, props⟩ freshId now).1] := rfl
    rw [hroute]
    simp only [get_stats]
    rw [lookupCount_events_by_type, lookupCount_events_by_type, List.countP_append]
    simp [create_event]
